import Mathlib

/-!
Verification of the offline-assembler code-generation framework in
`src/OfflineASMC/CodeGen.h`.

The emission-node hierarchy (`Generator` with subclasses `TextGenerator`,
`Reg`, `SequenceGenerator`) is embedded as an inductive type `Code`;
the virtual `generate()` method becomes the recursive function
`Code.generate`.  The instruction macros produced by `INSTR`, the
`address` composer, the `Label` builder, the register table and the
`CodeCollectionScope` stack discipline are embedded below, each next to
a comment naming the source lines it comes from.
-/

/-- Emission nodes, from `CodeGen.h` lines 12-61: `TextGenerator` holds a
literal string, `Reg` holds a register name, `SequenceGenerator` holds an
ordered list of children. -/
inductive Code where
  | text : String → Code
  | reg : String → Code
  | seqn : List Code → Code

mutual

/-- Embeds `Generator::generate` (`CodeGen.h` lines 14, 23-25, 38-40, 51-57):
a text node renders its string, a register node renders its name, a
sequence node renders the concatenation of its children's renderings
in order, with nothing inserted between them. -/
def Code.generate : Code → String
  | .text s => s
  | .reg s => s
  | .seqn cs => generateAll cs

/-- The loop body of `SequenceGenerator::generate` (`CodeGen.h` lines
52-56): starting from the empty string, append each child's rendering. -/
def generateAll : List Code → String
  | [] => ""
  | c :: cs => c.generate ++ generateAll cs

end

/-- Embeds `text` (`CodeGen.h` lines 68-70). -/
def text (s : String) : Code := .text s

/-- Embeds `reg` (`CodeGen.h` lines 72-74): wraps a register name in a
register emission node. -/
def reg (s : String) : Code := .reg s

/-- Embeds `seq` (`CodeGen.h` lines 63-66): builds a `SequenceGenerator` from
its arguments, here received as a list. -/
def seq (cs : List Code) : Code := .seqn cs

/-- Result of running a step of generation that may abort the process:
either an emission node, or a fatal process exit with the given code.
Used for `std::exit(1)` in `CodeGen.h` lines 88 and 117. -/
inductive GenResult where
  | ok : Code → GenResult
  | fatalExit : Nat → GenResult

/-- Embeds `error_impl` from `INSTR(error, [](){std::exit(1); return seq();}());`
(`CodeGen.h` lines 105-112, 117): the body calls `std::exit(1)` before any
node is produced, so every invocation is a fatal exit with code 1. -/
def error_impl (operands : List Code) : GenResult :=
  let _ := operands
  .fatalExit 1

/-- Embeds `addp_impl` from `INSTR(addp, seq("add", seq(operands), "32"))`
(`CodeGen.h` line 115). -/
def addp_impl (operands : List Code) : Code :=
  .seqn [.text "add", .seqn operands, .text "32"]

/-- Embeds `push_impl` from `INSTR(push, ...)` (`CodeGen.h` line 116). -/
def push_impl (operands : List Code) : Code :=
  .seqn [.text "push", .seqn operands, .text "32"]

/-- Embeds `move_impl` from `INSTR(move, ...)` (`CodeGen.h` line 118). -/
def move_impl (operands : List Code) : Code :=
  .seqn [.text "move", .seqn operands, .text "32"]

/-- Embeds `pop_impl` from `INSTR(pop, ...)` (`CodeGen.h` line 119). -/
def pop_impl (operands : List Code) : Code :=
  .seqn [.text "pop", .seqn operands, .text "32"]

/-- Embeds `subp_impl` from `INSTR(subp, ...)` (`CodeGen.h` line 120). -/
def subp_impl (operands : List Code) : Code :=
  .seqn [.text "sub", .seqn operands, .text "32"]

/-- Embeds `storepairq_impl` (`CodeGen.h` line 121). -/
def storepairq_impl (operands : List Code) : Code :=
  .seqn [.text "storepairq", .seqn operands, .text "32"]

/-- Embeds `storeq_impl` (`CodeGen.h` line 122). -/
def storeq_impl (operands : List Code) : Code :=
  .seqn [.text "storeq", .seqn operands, .text "32"]

/-- Embeds `loadpairq_impl` (`CodeGen.h` line 123). -/
def loadpairq_impl (operands : List Code) : Code :=
  .seqn [.text "loadpairq", .seqn operands, .text "32"]

/-- Embeds `loadq_impl` (`CodeGen.h` line 124). -/
def loadq_impl (operands : List Code) : Code :=
  .seqn [.text "loadq", .seqn operands, .text "32"]

/-- Embeds `_break_impl` from `INSTR(_break, seq("brk", ...))` (`CodeGen.h`
line 125). -/
def _break_impl (operands : List Code) : Code :=
  .seqn [.text "brk", .seqn operands, .text "32"]

/-- Embeds `jmp_impl` (`CodeGen.h` line 126). -/
def jmp_impl (operands : List Code) : Code :=
  .seqn [.text "jmp", .seqn operands, .text "32"]

/-- Embeds `ret_impl` (`CodeGen.h` line 127). -/
def ret_impl (operands : List Code) : Code :=
  .seqn [.text "ret", .seqn operands, .text "32"]

/-- Embeds `call_impl` (`CodeGen.h` line 128). -/
def call_impl (operands : List Code) : Code :=
  .seqn [.text "call", .seqn operands, .text "32"]

/-- Embeds `bpeq_impl` (`CodeGen.h` line 129). -/
def bpeq_impl (operands : List Code) : Code :=
  .seqn [.text "bpeq", .seqn operands, .text "32"]

/-- Embeds `address` (`CodeGen.h` lines 133-135): `seq(reg, offset)` — the base
register node followed by the textual form of the integer offset, with
no punctuation around either. -/
def address (base : Code) (offset : Int) : Code :=
  .seqn [base, .text (toString offset)]

/-- Embeds `class Label` (`CodeGen.h` lines 137-171): a name plus the four
attribute fields with their default member initialisers. -/
structure Label where
  name : String
  m_inFile : Bool := false
  m_global : Bool := false
  m_alignTo : Int := 0
  m_extern : Bool := false

/-- Embeds `label` (`CodeGen.h` lines 173-175): constructs a label from a name,
leaving every attribute at its default. -/
def label (name : String) : Label := { name := name }

/-- Embeds `Label::generate` (`CodeGen.h` lines 141-143): returns the name
verbatim. -/
def Label.generate (l : Label) : String := l.name

/-- Embeds `Label::inFile` (`CodeGen.h` lines 145-148). -/
def Label.inFile (l : Label) : Label := { l with m_inFile := true }

/-- Embeds `Label::global` (`CodeGen.h` lines 150-153). -/
def Label.global (l : Label) : Label := { l with m_global := true }

/-- Embeds `Label::aligned` (`CodeGen.h` lines 155-158). -/
def Label.aligned (l : Label) (alignTo : Int) : Label :=
  { l with m_alignTo := alignTo }

/-- Embeds `Label::extern_` (`CodeGen.h` lines 160-163). -/
def labelExtern (l : Label) : Label := { l with m_extern := true }

/-- Embeds `invalidGPR = reg("invalid")` (`CodeGen.h` line 184). -/
def invalidGPR : Code := reg "invalid"

/-- Embeds `csr10 = invalidGPR` (`CodeGen.h` line 210): the eleventh logical
callee-saved register has no concrete ARM64 backing and aliases the
invalid-register sentinel. -/
def csr10 : Code := invalidGPR

/-- The concrete ARM64 register names bound to the logical register table
(`CodeGen.h` lines 186-212): `t0`-`t12` are `x0`-`x12`, `cfr` is `x29`,
`csr0`-`csr9` are `x19`-`x28`, plus `sp` and `lr`. -/
def concreteRegisterNames : List String :=
  ["x0", "x1", "x2", "x3", "x4", "x5", "x6", "x7", "x8", "x9",
   "x10", "x11", "x12", "x29",
   "x19", "x20", "x21", "x22", "x23", "x24", "x25", "x26", "x27", "x28",
   "sp", "lr"]

/-!
The scope stack (`CodeGen.h` lines 76-103).  `s_scopes` is a process-wide
stack of `unique_ptr<CodeCollectionScope>`; scope objects are identified
below by a numeric id standing for their address.
-/

/-- Outcome of `~CodeCollectionScope` (`CodeGen.h` lines 85-91): either
the process exits with the given code, or the stack is popped and
generation continues with the remaining stack of scope ids. -/
inductive PopResult where
  | fatal : Nat → PopResult
  | ok : List Nat → PopResult
deriving DecidableEq

/-- Embeds `~CodeCollectionScope` (`CodeGen.h` lines 85-91), on a stack with
`top` as the current top scope id and `rest` below it: if the scope being
destroyed (`this`, identified by `handle`) is not the top, the process
exits with code 1; otherwise the top is popped. -/
def popScope (top : Nat) (rest : List Nat) (handle : Nat) : PopResult :=
  if top ≠ handle then .fatal 1 else .ok rest

/-- Embeds `CodeCollectionScope()` (`CodeGen.h` lines 81-84), run with `fuel`
available nested constructor activations on a stack `st` of scope ids:
the body `s_scopes.push(std::make_unique<CodeCollectionScope>())` first
constructs a fresh scope — which runs this same constructor again — and
only then pushes the freshly constructed scope's id.  `none` means the
activation did not complete within `fuel` nested calls; `some` would
return the new scope's id and the updated stack. -/
def ctorRun : Nat → List Nat → Option (Nat × List Nat)
  | 0, _ => none
  | fuel + 1, st =>
    match ctorRun fuel st with
    | none => none
    | some (inner, st') => some (inner + 1, inner :: st')

/-- Decides whether `pat` occurs as a contiguous substring of `s`:
some drop of `s`'s character list starts with `pat`'s character list. -/
def containsStr (s pat : String) : Bool :=
  (List.range (s.toList.length + 1)).any
    (fun i => List.take pat.toList.length (List.drop i s.toList) == pat.toList)

/-!
Theorems settling the claims.
-/

/-- C1: for every pair of emission nodes `s1, s2`, rendering the sequence
node built from `[s1, s2]` yields exactly the rendering of `s1` followed by
the rendering of `s2`, with no implicit separator text between them. -/
theorem seq_pair_renders_concat (s1 s2 : Code) :
    (seq [s1, s2]).generate = s1.generate ++ s2.generate := by
  simp [seq, Code.generate, generateAll, String.append_empty]

/-- C2 (code bug): the `CodeCollectionScope` constructor pushes a freshly
constructed scope instead of `this`, so every constructor activation first
runs another full constructor activation: with any amount of nesting fuel
and any starting stack, construction never completes.  Pushing even the
first scope A therefore does not terminate, so the claimed push A, push B,
pop B, pop A, finalize sequence cannot be carried out. -/
theorem ctor_never_completes (fuel : Nat) (st : List Nat) :
    ctorRun fuel st = none := by
  induction fuel generalizing st with
  | zero => rfl
  | succ n ih => simp [ctorRun, ih]

/-- C3: for every scope stack with `top` as its most recently pushed scope
and every handle different from `top`, destroying that handle's scope exits
the process with code 1 — a fatal, non-zero termination, never a
recoverable error value. -/
theorem pop_wrong_scope_fatal (top : Nat) (rest : List Nat) (handle : Nat)
    (h : handle ≠ top) :
    popScope top rest handle = PopResult.fatal 1 := by
  unfold popScope
  rw [if_pos (Ne.symm h)]

/-- Witness for C3: on the stack whose top is scope 5, popping handle 7 is
the fatal exit with code 1. -/
theorem pop_wrong_scope_fatal_witness :
    popScope 5 [] 7 = PopResult.fatal 1 :=
  pop_wrong_scope_fatal 5 [] 7 (by decide)

/-- C4 counterexample: the label `foo` with every attribute at its default
renders to the bare string `foo`, which contains neither a section
directive (`.text`) nor the symbol definition `foo:` — refuting the claim
that the rendering always contains both. -/
theorem label_default_directives_cex :
    (label "foo").generate = "foo" ∧
    containsStr (label "foo").generate ".text" = false ∧
    containsStr (label "foo").generate "foo:" = false :=
  ⟨rfl, rfl, rfl⟩

/-- C4 (amended): rendering a label whose attributes are all left at their
defaults produces exactly the symbol name — no section directive, no
alignment directive, no alternate-entry directive, and no trailing colon
are emitted. -/
theorem label_default_renders_bare_name (nm : String) :
    (label nm).generate = nm := rfl

/-- C5: invoking the reserved `error` instruction constructor with any
operand list immediately yields the fatal process exit with code 1; the
result is the `GenResult.fatalExit` constructor, which carries no emission
node, so no rendered text is produced. -/
theorem error_instruction_fatal (operands : List Code) :
    error_impl operands = GenResult.fatalExit 1 := rfl

/-- C6 counterexample: `address(reg "x0", 8)` renders to `x08`, not to the
parenthesised `x0(8)` form the claim requires. -/
theorem address_parentheses_cex :
    (address (reg "x0") 8).generate = "x08" ∧
    (address (reg "x0") 8).generate ≠ "x0(8)" ∧
    containsStr (address (reg "x0") 8).generate "(" = false :=
  ⟨rfl, by decide, rfl⟩

/-- C6 (amended): for every base operand and every integer displacement,
`address` returns an emission node rendering as the base's rendering
directly followed by the decimal text of the displacement, with no
parentheses; it is defined for every integer displacement, performing no
range validation. -/
theorem address_renders_base_then_offset (base : Code) (offset : Int) :
    (address base offset).generate = base.generate ++ toString offset := by
  simp [address, Code.generate, generateAll, String.append_empty]

/-- C7: each label builder operation (`inFile`, `global`, `aligned`,
`extern_`) is idempotent, every pair of distinct builder operations
commutes, and hence any order of combining the four distinct operations
yields the same resolved attribute state and the same rendered text, as
the final two conjuncts illustrate for the two reversed full orders. -/
theorem label_builders_idempotent_commute (l : Label) (n : Int) :
    Label.inFile (Label.inFile l) = Label.inFile l ∧
    Label.global (Label.global l) = Label.global l ∧
    Label.aligned (Label.aligned l n) n = Label.aligned l n ∧
    labelExtern (labelExtern l) = labelExtern l ∧
    Label.global (Label.inFile l) = Label.inFile (Label.global l) ∧
    Label.aligned (Label.inFile l) n = Label.inFile (Label.aligned l n) ∧
    labelExtern (Label.inFile l) = Label.inFile (labelExtern l) ∧
    Label.aligned (Label.global l) n = Label.global (Label.aligned l n) ∧
    labelExtern (Label.global l) = Label.global (labelExtern l) ∧
    labelExtern (Label.aligned l n) = Label.aligned (labelExtern l) n ∧
    Label.inFile (Label.global (Label.aligned (labelExtern l) n))
      = labelExtern (Label.aligned (Label.global (Label.inFile l)) n) ∧
    (Label.inFile (Label.global (Label.aligned (labelExtern l) n))).generate
      = (labelExtern (Label.aligned (Label.global (Label.inFile l)) n)).generate :=
  ⟨rfl, rfl, rfl, rfl, rfl, rfl, rfl, rfl, rfl, rfl, rfl, rfl⟩

/-- C8: the logical register `csr10` resolves to the invalid-register
sentinel `invalidGPR`; its rendered name is the explicit string `invalid`,
which is none of the concrete register names the target table binds, so
text emitted with it fails assembly loudly instead of naming a real
register. -/
theorem csr10_resolves_to_invalid_sentinel :
    csr10 = invalidGPR ∧
    csr10.generate = "invalid" ∧
    concreteRegisterNames.contains csr10.generate = false :=
  ⟨rfl, rfl, rfl⟩

/-- C9: building the `move` instruction with the two operands `x0` and
`x1` renders to `move` followed by `x0`, then `x1`, then the fixed suffix
`32` — so the substrings `move`, `x0`, `x1` occur in that order — and the
rendering is determined by the operand list alone, the constructor
consulting no other state. -/
theorem move_x0_x1_renders_in_order :
    (move_impl [reg "x0", reg "x1"]).generate
      = "move" ++ "x0" ++ "x1" ++ "32" := rfl

/-- C10: every instruction constructor in the table other than the
reserved `error` renders its mnemonic, then the concatenation of the
operands' renderings in the supplied order, then the fixed suffix `32`;
the mnemonic equals the constructor name except for `addp` (mnemonic
`add`), `subp` (`sub`) and `_break` (`brk`). -/
theorem instr_table_render_shape (ops : List Code) :
    (addp_impl ops).generate = "add" ++ generateAll ops ++ "32" ∧
    (push_impl ops).generate = "push" ++ generateAll ops ++ "32" ∧
    (move_impl ops).generate = "move" ++ generateAll ops ++ "32" ∧
    (pop_impl ops).generate = "pop" ++ generateAll ops ++ "32" ∧
    (subp_impl ops).generate = "sub" ++ generateAll ops ++ "32" ∧
    (storepairq_impl ops).generate = "storepairq" ++ generateAll ops ++ "32" ∧
    (storeq_impl ops).generate = "storeq" ++ generateAll ops ++ "32" ∧
    (loadpairq_impl ops).generate = "loadpairq" ++ generateAll ops ++ "32" ∧
    (loadq_impl ops).generate = "loadq" ++ generateAll ops ++ "32" ∧
    ( _break_impl ops).generate = "brk" ++ generateAll ops ++ "32" ∧
    (jmp_impl ops).generate = "jmp" ++ generateAll ops ++ "32" ∧
    (ret_impl ops).generate = "ret" ++ generateAll ops ++ "32" ∧
    (call_impl ops).generate = "call" ++ generateAll ops ++ "32" ∧
    (bpeq_impl ops).generate = "bpeq" ++ generateAll ops ++ "32" := by
  refine ⟨?_, ?_, ?_, ?_, ?_, ?_, ?_, ?_, ?_, ?_, ?_, ?_, ?_, ?_⟩ <;>
    simp [addp_impl, push_impl, move_impl, pop_impl, subp_impl,
      storepairq_impl, storeq_impl, loadpairq_impl, loadq_impl, _break_impl,
      jmp_impl, ret_impl, call_impl, bpeq_impl, Code.generate, generateAll,
      String.append_empty, String.append_assoc]
